import Mathlib

/-!
Verification of the ArduPilot MCP server control path
(`ardupilot_mcp_server.py`).

The six tool operations (`arm`, `disarm`, `takeoff`, `change_mode`,
`get_status`, `get_position`) each open a fresh pymavlink connection,
run a short command sequence inside `try ... finally conn.close()`,
and return either a human-readable string or a structured record.

Shallow embedding choices:
* Every transport primitive the operations call (`wait_heartbeat`,
  `arducopter_arm`, `motors_armed_wait`, `set_mode`,
  `command_long_send`, `recv_match`, ...) is modelled by a field of an
  environment `Env` giving that call's behaviour: `Except String α`,
  where `.error m` means the call raised a Python exception with
  message `m`, and `.ok a` means it returned `a`.
* An operation is a function `Env → Outcome ρ × List Event`: the
  outcome (`ok` = value returned to the tool boundary, `raised` = an
  exception propagated past the boundary) together with the trace of
  calls the operation made on the transport, in order.  `try/finally`
  becomes `finallyClose` (append a `close` event on every path);
  `arm`'s `except Exception` clause becomes `catchAll`.
* Python `float` arithmetic in `get_position` is modelled over `ℚ`
  (exact real-valued semantics of the scale-factor divisions).
* `conn.flightmode` is sampled repeatedly by `change_mode`'s poll
  loop (up to 5 s at 100 ms, i.e. 50 polls); it is modelled as a
  function `Nat → String` indexed by the poll count, with index 0 the
  initial read and index 50 the read after the loop expires.
-/

namespace ArduPilotMCP

/-- MAVLink constant `MAV_RESULT_ACCEPTED` (value 0). -/
def MAV_RESULT_ACCEPTED : Nat := 0

/-- MAVLink constant `MAV_CMD_NAV_TAKEOFF` (value 22). -/
def MAV_CMD_NAV_TAKEOFF : Nat := 22

/-- A cached HEARTBEAT message, as read through `conn.messages.get`. -/
structure HeartbeatMsg where
  system_status : Nat
deriving Repr, DecidableEq

/-- A COMMAND_ACK message, as returned by `recv_match(type='COMMAND_ACK')`. -/
structure AckMsg where
  result : Nat
deriving Repr, DecidableEq

/-- A GLOBAL_POSITION_INT message: raw integer telemetry fields. -/
structure PositionMsg where
  lat : Int
  lon : Int
  alt : Int
  relative_alt : Int
  hdg : Int
  vx : Int
  vy : Int
  vz : Int
deriving Repr, DecidableEq

/-- One observable call made by an operation on the transport. -/
inductive Event where
  /-- The `conn.close()` call in the `finally` block. -/
  | close
  /-- A `conn.wait_heartbeat(...)` call; `some t` is `timeout=t` seconds, `none` is the blocking form. -/
  | waitHeartbeat (timeoutS : Option Nat)
  /-- The `conn.arducopter_arm()` call. -/
  | armCmd
  /-- The `conn.motors_armed_wait()` call. -/
  | motorsArmedWait
  /-- The `conn.arducopter_disarm()` call. -/
  | disarmCmd
  /-- The `conn.motors_disarmed_wait()` call. -/
  | motorsDisarmedWait
  /-- A `conn.set_mode(x)` call; `x` is the (unchecked) result of a mode-table lookup. -/
  | setModeCmd (modeId : Option Nat)
  /-- A `conn.mav.command_long_send(...)` call with command id, confirmation and params 1-7. -/
  | takeoffCmd (cmd confirmation : Nat) (p1 p2 p3 p4 p5 p6 p7 : ℚ)
  /-- A `time.sleep` of the given number of milliseconds. -/
  | sleepMs (ms : Nat)
  /-- A `conn.recv_match(type=msgType, blocking=True, timeout=timeoutS)` call. -/
  | recvMatch (msgType : String) (timeoutS : Nat)
deriving Repr, DecidableEq

/-- Result of one tool invocation: a value returned to the caller, or an
exception propagated past the tool boundary. -/
inductive Outcome (ρ : Type) where
  | ok (r : ρ)
  | raised (msg : String)
deriving Repr, DecidableEq

/-- The world the operations run against: the behaviour of every
transport primitive.  `.error m` models the Python call raising an
exception with message `m`. -/
structure Env where
  /-- Behaviour of `connect_to_ardupilot()`: `.error` models the re-raised connection failure. -/
  connect : Except String Unit
  /-- Behaviour of `conn.wait_heartbeat(timeout=10)`: `.ok true` = heartbeat received,
  `.ok false` = timed out (pymavlink returns `None`). -/
  waitHeartbeat10 : Except String Bool
  /-- Behaviour of `conn.wait_heartbeat()` with no timeout (blocks until heartbeat or raises). -/
  waitHeartbeatBlocking : Except String Unit
  arducopter_arm : Except String Unit
  motors_armed_wait : Except String Unit
  arducopter_disarm : Except String Unit
  motors_disarmed_wait : Except String Unit
  /-- The `conn.flightmode` value sampled at the k-th poll (0 = initial read). -/
  flightmode : Nat → String
  /-- The `conn.mode_mapping()` result: mode-name → mode-id table. -/
  mode_table : List (String × Nat)
  /-- Behaviour of `conn.set_mode(x)` where `x` is an unchecked table-lookup result. -/
  set_mode : Option Nat → Except String Unit
  /-- Behaviour of `conn.mav.command_long_send(...)`. -/
  command_long_send : Except String Unit
  /-- Behaviour of `recv_match(type='COMMAND_ACK', blocking=True, timeout=10)`:
  `.ok none` = no message within the timeout. -/
  recvAck : Except String (Option AckMsg)
  /-- Behaviour of `recv_match(type='GLOBAL_POSITION_INT', blocking=True, timeout=5)`. -/
  recvPosition : Except String (Option PositionMsg)
  /-- The `conn.motors_armed()` result (cached-state read). -/
  motors_armed : Bool
  /-- The `conn.messages.get('HEARTBEAT')` result (cached-state read). -/
  cachedHeartbeat : Option HeartbeatMsg

/-- Run one primitive call: record its event, then either propagate the
raised exception or continue with the returned value. -/
def andThen {α ρ : Type} (ev : Event) (res : Except String α)
    (k : α → Outcome ρ × List Event) : Outcome ρ × List Event :=
  match res with
  | .error e => (Outcome.raised e, [ev])
  | .ok a => ((k a).1, ev :: (k a).2)

/-- Model of `time.sleep`: record the sleep, then continue. -/
def sleepThen {ρ : Type} (ms : Nat) (k : Outcome ρ × List Event) :
    Outcome ρ × List Event :=
  (k.1, Event.sleepMs ms :: k.2)

/-- The `finally conn.close()` of each operation: a `close` event is
appended on every path, whether the body returned or raised. -/
def finallyClose {ρ : Type} (body : Outcome ρ × List Event) :
    Outcome ρ × List Event :=
  (body.1, body.2 ++ [Event.close])

/-- Model of `arm`'s `except Exception as e` clause: any raised exception is
converted to the diagnostic string. -/
def catchAll (fmt : String → String) :
    Outcome String × List Event → Outcome String × List Event
  | (Outcome.raised e, evs) => (Outcome.ok (fmt e), evs)
  | r => r

/-- The heartbeat-timeout error string shared by `arm` and `takeoff`. -/
def heartbeatTimeoutMsg : String := "エラー: ArduPilotとの接続がタイムアウトしました"

/-- The exception-to-string formatting of `arm`. -/
def armCatchMsg (e : String) : String :=
  "エラー: " ++ e ++ "\n接続設定を確認してください:\n- SITL/実機が起動しているか\n- ポート番号が正しいか (5762)\n- ファイアウォール設定"

/-- The success message of `arm`. -/
def armSuccessMsg : String := "機体をアームしました。"

/-- The success message of `disarm`. -/
def disarmSuccessMsg : String := "機体をディスアームしました。"

/-- The rejection error message of `takeoff`. -/
def takeoffRejectMsg : String := "エラー: 離陸コマンドが拒否されました"

/-- The success message of `takeoff` (the f-string with the altitude). -/
def takeoffSuccessMsg (altitude : ℚ) : String :=
  toString altitude ++ "m の高度まで離陸を開始しました。"

/-- The invalid-mode message of `change_mode`. -/
def invalidModeMsg (mode : String) : String := "無効なモードです: " ++ mode

/-- The success message of `change_mode` (with the uppercased name). -/
def changeModeSuccessMsg (upper : String) : String :=
  "モードを " ++ upper ++ " に変更しました。"

/-- The soft-timeout warning of `change_mode`, naming the mode actually observed. -/
def changeModeWarnMsg (observed : String) : String :=
  "警告: モード変更を確認できませんでした (現在のモード: " ++ observed ++ ")"

/-- Body of `arm` (the `try` block before `except`/`finally`);
`match hb with false` is the `if not conn.wait_heartbeat(timeout=10)` test. -/
def armBody (env : Env) : Outcome String × List Event :=
  andThen (Event.waitHeartbeat (some 10)) env.waitHeartbeat10 fun hb =>
    match hb with
    | false => (Outcome.ok heartbeatTimeoutMsg, [])
    | true =>
      andThen Event.armCmd env.arducopter_arm fun _ =>
      andThen Event.motorsArmedWait env.motors_armed_wait fun _ =>
      (Outcome.ok armSuccessMsg, [])

/-- The `arm` tool: connect, run body with `except Exception` and
`finally conn.close()`. -/
def arm (env : Env) : Outcome String × List Event :=
  match env.connect with
  | .error e => (Outcome.raised e, [])
  | .ok _ => finallyClose (catchAll armCatchMsg (armBody env))

/-- Body of `disarm` (the `try` block; no `except` clause). -/
def disarmBody (env : Env) : Outcome String × List Event :=
  andThen (Event.waitHeartbeat none) env.waitHeartbeatBlocking fun _ =>
  andThen Event.disarmCmd env.arducopter_disarm fun _ =>
  andThen Event.motorsDisarmedWait env.motors_disarmed_wait fun _ =>
  (Outcome.ok disarmSuccessMsg, [])

/-- The `disarm` tool. -/
def disarm (env : Env) : Outcome String × List Event :=
  match env.connect with
  | .error e => (Outcome.raised e, [])
  | .ok _ => finallyClose (disarmBody env)

/-- The unconditional tail of `takeoff` after the mode check: arm, wait
for armed, sleep 1 s, send the takeoff command, wait up to 10 s for the
COMMAND_ACK and interpret it. -/
def takeoffAfterMode (env : Env) (altitude : ℚ) : Outcome String × List Event :=
  andThen Event.armCmd env.arducopter_arm fun _ =>
  andThen Event.motorsArmedWait env.motors_armed_wait fun _ =>
  sleepThen 1000 <|
  andThen (Event.takeoffCmd MAV_CMD_NAV_TAKEOFF 0 0 0 0 0 0 0 altitude)
      env.command_long_send fun _ =>
  andThen (Event.recvMatch "COMMAND_ACK" 10) env.recvAck fun msg =>
    match msg with
    | none => (Outcome.ok takeoffRejectMsg, [])
    | some m =>
      if m.result ≠ MAV_RESULT_ACCEPTED then (Outcome.ok takeoffRejectMsg, [])
      else (Outcome.ok (takeoffSuccessMsg altitude), [])

/-- Body of `takeoff` (the `try` block; no `except` clause);
`match hb with false` is the `if not conn.wait_heartbeat(timeout=10)` test,
and the mode-table lookup result is passed to `set_mode` unchecked. -/
def takeoffBody (env : Env) (altitude : ℚ) : Outcome String × List Event :=
  andThen (Event.waitHeartbeat (some 10)) env.waitHeartbeat10 fun hb =>
    match hb with
    | false => (Outcome.ok heartbeatTimeoutMsg, [])
    | true =>
      if env.flightmode 0 ≠ "GUIDED" then
        andThen (Event.setModeCmd (env.mode_table.lookup "GUIDED"))
            (env.set_mode (env.mode_table.lookup "GUIDED")) fun _ =>
          sleepThen 1000 (takeoffAfterMode env altitude)
      else takeoffAfterMode env altitude

/-- The `takeoff` tool. -/
def takeoff (env : Env) (altitude : ℚ) : Outcome String × List Event :=
  match env.connect with
  | .error e => (Outcome.raised e, [])
  | .ok _ => finallyClose (takeoffBody env altitude)

/-- Python's `str.upper()`: uppercase each character.  (Defined over the
character list so that it reduces in the kernel; `String.toUpper` is
extensionally the same map but is defined by well-founded recursion on
byte positions and does not reduce.) -/
def pyUpper (s : String) : String := String.mk (s.data.map Char.toUpper)

/-- The confirmation poll of `change_mode`: the `while time.time() - start < 5`
loop with `time.sleep(0.1)`, i.e. up to 50 polls 100 ms apart; on expiry
the warning reads `conn.flightmode` once more (poll index `k`). -/
def changeModePoll (env : Env) (upper : String) :
    Nat → Nat → Outcome String × List Event
  | 0, k => (Outcome.ok (changeModeWarnMsg (env.flightmode k)), [])
  | fuel + 1, k =>
    if env.flightmode k = upper then (Outcome.ok (changeModeSuccessMsg upper), [])
    else sleepThen 100 (changeModePoll env upper fuel (k + 1))

/-- Body of `change_mode` (the `try` block; no `except` clause). -/
def changeModeBody (env : Env) (mode : String) : Outcome String × List Event :=
  andThen (Event.waitHeartbeat none) env.waitHeartbeatBlocking fun _ =>
    match env.mode_table.lookup (pyUpper mode) with
    | none => (Outcome.ok (invalidModeMsg mode), [])
    | some id =>
      andThen (Event.setModeCmd (some id)) (env.set_mode (some id)) fun _ =>
        changeModePoll env (pyUpper mode) 50 0

/-- The `change_mode` tool. -/
def change_mode (env : Env) (mode : String) : Outcome String × List Event :=
  match env.connect with
  | .error e => (Outcome.raised e, [])
  | .ok _ => finallyClose (changeModeBody env mode)

/-- The structured record `get_status` returns: exactly the fields
`armed`, `mode`, `system_status`. -/
structure StatusResult where
  armed : Bool
  mode : String
  system_status : Option Nat
deriving Repr, DecidableEq

/-- Body of `get_status` (the `try` block; no `except` clause). -/
def getStatusBody (env : Env) : Outcome StatusResult × List Event :=
  andThen (Event.waitHeartbeat none) env.waitHeartbeatBlocking fun _ =>
    (Outcome.ok
      { armed := env.motors_armed
        mode := env.flightmode 0
        system_status := env.cachedHeartbeat.map HeartbeatMsg.system_status },
     [])

/-- The `get_status` tool. -/
def get_status (env : Env) : Outcome StatusResult × List Event :=
  match env.connect with
  | .error e => (Outcome.raised e, [])
  | .ok _ => finallyClose (getStatusBody env)

/-- The converted position record `get_position` returns on success. -/
structure PositionData where
  latitude : ℚ
  longitude : ℚ
  altitude : ℚ
  relative_alt : ℚ
  heading : ℚ
  vx : Int
  vy : Int
  vz : Int
deriving Repr, DecidableEq

/-- The result of `get_position`: the converted record, or the structured
error mapping. -/
inductive PositionResult where
  | data (d : PositionData)
  | error (msg : String)
deriving Repr, DecidableEq

/-- The scale-factor conversions applied to a raw GLOBAL_POSITION_INT. -/
def convertPosition (p : PositionMsg) : PositionData :=
  { latitude := (p.lat : ℚ) / 10 ^ 7
    longitude := (p.lon : ℚ) / 10 ^ 7
    altitude := (p.alt : ℚ) / 1000
    relative_alt := (p.relative_alt : ℚ) / 1000
    heading := (p.hdg : ℚ) / 100
    vx := p.vx
    vy := p.vy
    vz := p.vz }

/-- The no-telemetry structured error of `get_position`. -/
def noPositionMsg : String := "位置情報がありません"

/-- Body of `get_position` (the `try` block; no `except` clause). -/
def getPositionBody (env : Env) : Outcome PositionResult × List Event :=
  andThen (Event.waitHeartbeat none) env.waitHeartbeatBlocking fun _ =>
  andThen (Event.recvMatch "GLOBAL_POSITION_INT" 5) env.recvPosition fun msg =>
    match msg with
    | some p => (Outcome.ok (PositionResult.data (convertPosition p)), [])
    | none => (Outcome.ok (PositionResult.error noPositionMsg), [])

/-- The `get_position` tool. -/
def get_position (env : Env) : Outcome PositionResult × List Event :=
  match env.connect with
  | .error e => (Outcome.raised e, [])
  | .ok _ => finallyClose (getPositionBody env)

/-- Number of occurrences of an event in a trace. -/
def ecount (e : Event) : List Event → Nat
  | [] => 0
  | x :: rest => (if x = e then 1 else 0) + ecount e rest

/-- 1 if `connect_to_ardupilot` succeeds (a session is acquired), else 0. -/
def acquisitions (env : Env) : Nat :=
  match env.connect with
  | .ok _ => 1
  | .error _ => 0

/-- The outcome is a value handed back to the tool boundary (no
exception escaped). -/
def Outcome.returns {ρ : Type} : Outcome ρ → Prop
  | .ok _ => True
  | .raised _ => False

/-- Is the event a command dispatched to the vehicle (as opposed to a
wait, a sleep, or the session close)?  Used to state that an operation
sent zero commands. -/
def Event.isCommand : Event → Bool
  | .armCmd => true
  | .disarmCmd => true
  | .setModeCmd _ => true
  | .takeoffCmd _ _ _ _ _ _ _ _ _ => true
  | _ => false

/-- Number of commands dispatched in a trace. -/
def cmdCount (l : List Event) : Nat := (l.filter Event.isCommand).length

/-- No transport primitive call in this environment raises a Python
exception (each call either succeeds or reports failure through its
return value, e.g. a timeout returning `None`). -/
def Env.NoRaise (env : Env) : Prop :=
  (∃ b, env.waitHeartbeat10 = Except.ok b) ∧
  env.waitHeartbeatBlocking = Except.ok () ∧
  env.arducopter_arm = Except.ok () ∧
  env.motors_armed_wait = Except.ok () ∧
  env.arducopter_disarm = Except.ok () ∧
  env.motors_disarmed_wait = Except.ok () ∧
  (∀ x, env.set_mode x = Except.ok ()) ∧
  env.command_long_send = Except.ok () ∧
  (∃ a, env.recvAck = Except.ok a) ∧
  (∃ p, env.recvPosition = Except.ok p)

/-- The raw GLOBAL_POSITION_INT instance from the spec's test vector:
lat = 123456780 micro-degrees, alt = 10000 mm, hdg = 9000 centi-degrees. -/
def specPosition : PositionMsg :=
  { lat := 123456780, lon := 987654320, alt := 10000, relative_alt := 5000
    hdg := 9000, vx := 1, vy := -2, vz := 3 }

/-- A fully cooperative environment: connection succeeds, every
primitive succeeds, the vehicle is already in GUIDED mode, the mode
table knows GUIDED, the takeoff command is acknowledged ACCEPTED, and
position telemetry arrives. -/
def okEnv : Env where
  connect := Except.ok ()
  waitHeartbeat10 := Except.ok true
  waitHeartbeatBlocking := Except.ok ()
  arducopter_arm := Except.ok ()
  motors_armed_wait := Except.ok ()
  arducopter_disarm := Except.ok ()
  motors_disarmed_wait := Except.ok ()
  flightmode := fun _ => "GUIDED"
  mode_table := [("GUIDED", 4)]
  set_mode := fun _ => Except.ok ()
  command_long_send := Except.ok ()
  recvAck := Except.ok (some { result := MAV_RESULT_ACCEPTED })
  recvPosition := Except.ok (some specPosition)
  motors_armed := false
  cachedHeartbeat := none

/-- Like `okEnv`, but the blocking heartbeat wait raises (e.g. a socket
error): exercises the exception path of the operations that have no
`except` clause. -/
def raisingEnv : Env :=
  { okEnv with waitHeartbeatBlocking := Except.error "socket error" }

/-- Like `okEnv`, but the vehicle starts in STABILIZE mode, so takeoff
must go through the mode-change branch. -/
def stabilizeEnv : Env :=
  { okEnv with flightmode := fun _ => "STABILIZE" }

/-- Like `okEnv`, but the takeoff COMMAND_ACK comes back with a
non-accepted result code (4 = MAV_RESULT_FAILED). -/
def rejectAckEnv : Env :=
  { okEnv with recvAck := Except.ok (some { result := 4 }) }

/-- Like `okEnv`, but no COMMAND_ACK arrives within the 10 s wait. -/
def noAckEnv : Env :=
  { okEnv with recvAck := Except.ok none }

/-- Like `okEnv`, but no GLOBAL_POSITION_INT arrives within the 5 s wait. -/
def noPositionEnv : Env :=
  { okEnv with recvPosition := Except.ok none }

/-- Like `okEnv`, but the vehicle is in STABILIZE and its mode table
does not contain "GUIDED" at all: exercises takeoff's unguarded
mode-table lookup. -/
def noGuidedEnv : Env :=
  { okEnv with flightmode := fun _ => "STABILIZE", mode_table := [] }

/-- Like `okEnv`, but the reported flight mode stays "STABILIZE" for the
first three polls and becomes "GUIDED" from the fourth poll on (the
spec's "reports GUIDED within 300 ms" scenario). -/
def lateGuidedEnv : Env :=
  { okEnv with flightmode := fun k => if k < 3 then "STABILIZE" else "GUIDED" }

@[simp]
theorem ecount_nil (e : Event) : ecount e [] = 0 := rfl

@[simp]
theorem ecount_cons (e x : Event) (l : List Event) :
    ecount e (x :: l) = (if x = e then 1 else 0) + ecount e l := rfl

@[simp]
theorem ecount_append (e : Event) (l₁ l₂ : List Event) :
    ecount e (l₁ ++ l₂) = ecount e l₁ + ecount e l₂ := by
  induction l₁ with
  | nil => simp
  | cons x rest ih => simp [ih]; ring

@[simp]
theorem andThen_ok {α ρ : Type} (ev : Event) (a : α)
    (k : α → Outcome ρ × List Event) :
    andThen ev (Except.ok a) k = ((k a).1, ev :: (k a).2) := rfl

@[simp]
theorem andThen_error {α ρ : Type} (ev : Event) (e : String)
    (k : α → Outcome ρ × List Event) :
    andThen (α := α) ev (Except.error e) k = (Outcome.raised e, [ev]) := rfl

@[simp]
theorem sleepThen_fst {ρ : Type} (ms : Nat) (k : Outcome ρ × List Event) :
    (sleepThen ms k).1 = k.1 := rfl

@[simp]
theorem sleepThen_snd {ρ : Type} (ms : Nat) (k : Outcome ρ × List Event) :
    (sleepThen ms k).2 = Event.sleepMs ms :: k.2 := rfl

@[simp]
theorem finallyClose_fst {ρ : Type} (b : Outcome ρ × List Event) :
    (finallyClose b).1 = b.1 := rfl

@[simp]
theorem finallyClose_snd {ρ : Type} (b : Outcome ρ × List Event) :
    (finallyClose b).2 = b.2 ++ [Event.close] := rfl

theorem ecount_andThen {α ρ : Type} (e ev : Event) (hev : ev ≠ e)
    (res : Except String α) (k : α → Outcome ρ × List Event)
    (hk : ∀ a, ecount e (k a).2 = 0) :
    ecount e (andThen ev res k).2 = 0 := by
  cases res <;> simp [andThen, hev, hk]

theorem ecount_sleepThen {ρ : Type} (e : Event) (ms : Nat)
    (h : ∀ n, Event.sleepMs n ≠ e) (k : Outcome ρ × List Event)
    (hk : ecount e k.2 = 0) : ecount e (sleepThen ms k).2 = 0 := by
  simp [sleepThen, h, hk]

theorem close_free_armBody (env : Env) :
    ecount Event.close (armBody env).2 = 0 := by
  unfold armBody
  apply ecount_andThen _ _ (by simp)
  intro hb
  cases hb
  · simp
  · apply ecount_andThen _ _ (by simp)
    intro _
    apply ecount_andThen _ _ (by simp)
    intro _
    simp

theorem close_free_disarmBody (env : Env) :
    ecount Event.close (disarmBody env).2 = 0 := by
  unfold disarmBody
  apply ecount_andThen _ _ (by simp)
  intro _
  apply ecount_andThen _ _ (by simp)
  intro _
  apply ecount_andThen _ _ (by simp)
  intro _
  simp

theorem close_free_takeoffAfterMode (env : Env) (altitude : ℚ) :
    ecount Event.close (takeoffAfterMode env altitude).2 = 0 := by
  unfold takeoffAfterMode
  apply ecount_andThen _ _ (by simp)
  intro _
  apply ecount_andThen _ _ (by simp)
  intro _
  apply ecount_sleepThen _ _ (by simp)
  apply ecount_andThen _ _ (by simp)
  intro _
  apply ecount_andThen _ _ (by simp)
  intro msg
  cases msg with
  | none => simp
  | some m =>
    by_cases hr : m.result = MAV_RESULT_ACCEPTED
    · simp [hr]
    · simp [hr]

theorem close_free_takeoffBody (env : Env) (altitude : ℚ) :
    ecount Event.close (takeoffBody env altitude).2 = 0 := by
  unfold takeoffBody
  apply ecount_andThen _ _ (by simp)
  intro hb
  cases hb
  · simp
  · show ecount Event.close
      (if env.flightmode 0 ≠ "GUIDED" then
        andThen (Event.setModeCmd (env.mode_table.lookup "GUIDED"))
            (env.set_mode (env.mode_table.lookup "GUIDED")) fun _ =>
          sleepThen 1000 (takeoffAfterMode env altitude)
      else takeoffAfterMode env altitude).2 = 0
    split
    · apply ecount_andThen _ _ (by simp)
      intro _
      apply ecount_sleepThen _ _ (by simp)
      exact close_free_takeoffAfterMode env altitude
    · exact close_free_takeoffAfterMode env altitude

theorem close_free_changeModePoll (env : Env) (upper : String) :
    ∀ fuel k, ecount Event.close (changeModePoll env upper fuel k).2 = 0 := by
  intro fuel
  induction fuel with
  | zero => intro k; simp [changeModePoll]
  | succ n ih =>
    intro k
    unfold changeModePoll
    by_cases hk : env.flightmode k = upper <;> simp [hk]
    exact ih (k + 1)

theorem close_free_changeModeBody (env : Env) (mode : String) :
    ecount Event.close (changeModeBody env mode).2 = 0 := by
  unfold changeModeBody
  apply ecount_andThen _ _ (by simp)
  intro _
  cases env.mode_table.lookup (pyUpper mode) with
  | none => simp
  | some id =>
    simp only []
    apply ecount_andThen _ _ (by simp)
    intro _
    exact close_free_changeModePoll env (pyUpper mode) 50 0

theorem close_free_getStatusBody (env : Env) :
    ecount Event.close (getStatusBody env).2 = 0 := by
  unfold getStatusBody
  apply ecount_andThen _ _ (by simp)
  intro _
  simp

theorem close_free_getPositionBody (env : Env) :
    ecount Event.close (getPositionBody env).2 = 0 := by
  unfold getPositionBody
  apply ecount_andThen _ _ (by simp)
  intro _
  apply ecount_andThen _ _ (by simp)
  intro msg
  cases msg <;> simp

theorem ecount_close_catchAll (fmt : String → String)
    (r : Outcome String × List Event) :
    ecount Event.close (catchAll fmt r).2 = ecount Event.close r.2 := by
  rcases r with ⟨o, evs⟩
  cases o <;> simp [catchAll]

/-- Claim C1: For every one of the six operations and every behaviour of the
transport, the `finally conn.close()` release fires exactly once per
acquired session: once when `connect_to_ardupilot` succeeded (whatever the
exit path — normal return, early error-string return, or propagated
exception), and zero times when it raised. -/
theorem session_release_exactly_once (env : Env) (altitude : ℚ) (mode : String) :
    ecount Event.close (arm env).2 = acquisitions env ∧
    ecount Event.close (disarm env).2 = acquisitions env ∧
    ecount Event.close (takeoff env altitude).2 = acquisitions env ∧
    ecount Event.close (change_mode env mode).2 = acquisitions env ∧
    ecount Event.close (get_status env).2 = acquisitions env ∧
    ecount Event.close (get_position env).2 = acquisitions env := by
  unfold arm disarm takeoff change_mode get_status get_position acquisitions
  cases hc : env.connect with
  | error e => simp
  | ok u =>
    simp only [finallyClose, ecount_append, ecount_close_catchAll,
      close_free_armBody, close_free_disarmBody, close_free_takeoffBody,
      close_free_changeModeBody, close_free_getStatusBody,
      close_free_getPositionBody]
    simp [ecount]

theorem catchAll_returns (fmt : String → String)
    (r : Outcome String × List Event) : (catchAll fmt r).1.returns := by
  rcases r with ⟨o, evs⟩
  cases o <;> simp [catchAll, Outcome.returns]

theorem changeModePoll_returns (env : Env) (upper : String) :
    ∀ fuel k, (changeModePoll env upper fuel k).1.returns := by
  intro fuel
  induction fuel with
  | zero => intro k; simp [changeModePoll, Outcome.returns]
  | succ n ih =>
    intro k
    unfold changeModePoll
    by_cases hk : env.flightmode k = upper <;> simp [hk, Outcome.returns]
    exact ih (k + 1)

theorem takeoffAfterMode_returns (env : Env) (altitude : ℚ)
    (h1 : env.arducopter_arm = Except.ok ())
    (h2 : env.motors_armed_wait = Except.ok ())
    (h3 : env.command_long_send = Except.ok ())
    (a : Option AckMsg) (h4 : env.recvAck = Except.ok a) :
    (takeoffAfterMode env altitude).1.returns := by
  cases a with
  | none => simp [takeoffAfterMode, h1, h2, h3, h4, Outcome.returns]
  | some m =>
    by_cases hr : m.result = MAV_RESULT_ACCEPTED <;>
      simp [takeoffAfterMode, h1, h2, h3, h4, hr, Outcome.returns]

theorem takeoffBody_returns (env : Env) (altitude : ℚ)
    (b : Bool) (h0 : env.waitHeartbeat10 = Except.ok b)
    (hsm : ∀ x, env.set_mode x = Except.ok ())
    (h1 : env.arducopter_arm = Except.ok ())
    (h2 : env.motors_armed_wait = Except.ok ())
    (h3 : env.command_long_send = Except.ok ())
    (a : Option AckMsg) (h4 : env.recvAck = Except.ok a) :
    (takeoffBody env altitude).1.returns := by
  cases b
  · simp [takeoffBody, h0, Outcome.returns]
  · by_cases hm : env.flightmode 0 = "GUIDED" <;>
      simp [takeoffBody, h0, hsm, hm] <;>
      exact takeoffAfterMode_returns env altitude h1 h2 h3 a h4

theorem changeModeBody_returns (env : Env) (mode : String)
    (hwb : env.waitHeartbeatBlocking = Except.ok ())
    (hsm : ∀ x, env.set_mode x = Except.ok ()) :
    (changeModeBody env mode).1.returns := by
  unfold changeModeBody
  simp [hwb]
  cases hlk : env.mode_table.lookup (pyUpper mode) with
  | none => simp [Outcome.returns]
  | some id =>
    simp [hsm]
    exact changeModePoll_returns env (pyUpper mode) 50 0

/-- Counterexample to claim C2: The claim says every one of the six operations
catches every post-acquisition failure.  But `disarm` has no `except`
clause: when its blocking heartbeat wait raises (here "socket error"),
the exception propagates past the tool boundary as an unhandled fault. -/
theorem disarm_exception_escapes_boundary :
    (disarm raisingEnv).1 = Outcome.raised "socket error" := rfl

/-- Claim C2, amended: Only `arm` has an `except Exception` clause, so
only `arm` converts every post-acquisition failure (including raised
exceptions) into a returned string.  The other five operations convert
the failures they detect through return values (timeouts, missing
messages, unknown modes) into strings or structured error fields, and
thus return normally whenever no transport primitive raises; but an
exception raised by a primitive propagates past the tool boundary
(with the session still released, cf. the release invariant). -/
theorem failures_converted_at_boundary (env : Env) (altitude : ℚ) (mode : String)
    (hc : env.connect = Except.ok ()) :
    (arm env).1.returns ∧
    (env.NoRaise →
      (disarm env).1.returns ∧
      (takeoff env altitude).1.returns ∧
      (change_mode env mode).1.returns ∧
      (get_status env).1.returns ∧
      (get_position env).1.returns) := by
  constructor
  · simp only [arm, hc, finallyClose_fst]
    exact catchAll_returns armCatchMsg (armBody env)
  · rintro ⟨⟨b, h10⟩, hwb, harm, hmaw, hdis, hmdw, hsm, hcl, ⟨a, hack⟩, ⟨p, hpos⟩⟩
    refine ⟨?_, ?_, ?_, ?_, ?_⟩
    · simp [disarm, disarmBody, hc, hwb, hdis, hmdw, Outcome.returns]
    · simp only [takeoff, hc, finallyClose_fst]
      exact takeoffBody_returns env altitude b h10 hsm harm hmaw hcl a hack
    · simp only [change_mode, hc, finallyClose_fst]
      exact changeModeBody_returns env mode hwb hsm
    · simp [get_status, getStatusBody, hc, hwb, Outcome.returns]
    · cases p with
      | none => simp [get_position, getPositionBody, hc, hwb, hpos, Outcome.returns]
      | some q => simp [get_position, getPositionBody, hc, hwb, hpos, Outcome.returns]

/-- Witness for the amended C2 at the concrete cooperative environment. -/
theorem failures_converted_at_boundary_witness :
    (arm okEnv).1.returns ∧
    (okEnv.NoRaise →
      (disarm okEnv).1.returns ∧
      (takeoff okEnv 10).1.returns ∧
      (change_mode okEnv "guided").1.returns ∧
      (get_status okEnv).1.returns ∧
      (get_position okEnv).1.returns) :=
  failures_converted_at_boundary okEnv 10 "guided" rfl

/-- The takeoff success message can never coincide with the rejection
message, whatever the altitude: they end in different characters. -/
theorem takeoffSuccessMsg_ne_reject (q : ℚ) :
    takeoffSuccessMsg q ≠ takeoffRejectMsg := by
  intro h
  have h2 := congrArg (fun s => s.data.getLast?) h
  simp only [takeoffSuccessMsg, takeoffRejectMsg, String.data_append,
    List.getLast?_append] at h2
  exact absurd (show (some '。' : Option Char) = some 'た' from h2) (by decide)

theorem takeoffAfterMode_fst (env : Env) (altitude : ℚ)
    (harm : env.arducopter_arm = Except.ok ())
    (hmaw : env.motors_armed_wait = Except.ok ())
    (hcl : env.command_long_send = Except.ok ()) :
    (takeoffAfterMode env altitude).1 =
      match env.recvAck with
      | .error e => Outcome.raised e
      | .ok none => Outcome.ok takeoffRejectMsg
      | .ok (some m) =>
        if m.result ≠ MAV_RESULT_ACCEPTED then Outcome.ok takeoffRejectMsg
        else Outcome.ok (takeoffSuccessMsg altitude) := by
  unfold takeoffAfterMode
  simp only [harm, hmaw, hcl, andThen_ok, sleepThen_fst]
  cases hack : env.recvAck with
  | error e => simp
  | ok a =>
    cases a with
    | none => simp
    | some m => simp; split <;> simp

theorem takeoffBody_fst_of_heartbeat (env : Env) (altitude : ℚ)
    (h10 : env.waitHeartbeat10 = Except.ok true)
    (hsm : env.set_mode (env.mode_table.lookup "GUIDED") = Except.ok ()) :
    (takeoffBody env altitude).1 = (takeoffAfterMode env altitude).1 := by
  unfold takeoffBody
  simp only [h10, andThen_ok]
  by_cases hm : env.flightmode 0 = "GUIDED" <;> simp [hm, hsm]

/-- Claim C3: Once takeoff reaches the acknowledgement wait (heartbeat
seen, mode change / arm / command dispatch all succeed), a missing
COMMAND_ACK or one whose result is not MAV_RESULT_ACCEPTED yields the
explicit rejection message, and the success message referencing the
altitude is returned only when an ACCEPTED acknowledgement arrived. -/
theorem takeoff_ack_gating (env : Env) (altitude : ℚ)
    (hc : env.connect = Except.ok ())
    (h10 : env.waitHeartbeat10 = Except.ok true)
    (hsm : env.set_mode (env.mode_table.lookup "GUIDED") = Except.ok ())
    (harm : env.arducopter_arm = Except.ok ())
    (hmaw : env.motors_armed_wait = Except.ok ())
    (hcl : env.command_long_send = Except.ok ()) :
    ((env.recvAck = Except.ok none ∨
        ∃ m, env.recvAck = Except.ok (some m) ∧ m.result ≠ MAV_RESULT_ACCEPTED) →
      (takeoff env altitude).1 = Outcome.ok takeoffRejectMsg) ∧
    ((takeoff env altitude).1 = Outcome.ok (takeoffSuccessMsg altitude) →
      ∃ m, env.recvAck = Except.ok (some m) ∧ m.result = MAV_RESULT_ACCEPTED) := by
  have hfst : (takeoff env altitude).1 = (takeoffAfterMode env altitude).1 := by
    simp only [takeoff, hc, finallyClose_fst]
    exact takeoffBody_fst_of_heartbeat env altitude h10 hsm
  have hch := takeoffAfterMode_fst env altitude harm hmaw hcl
  constructor
  · rintro (hnone | ⟨m, hm, hr⟩)
    · rw [hfst, hch, hnone]
    · rw [hfst, hch, hm]
      simp [hr]
  · intro hsucc
    rw [hfst, hch] at hsucc
    cases hack : env.recvAck with
    | error e =>
      rw [hack] at hsucc
      simp at hsucc
    | ok a =>
      cases a with
      | none =>
        rw [hack] at hsucc
        exact absurd (Outcome.ok.inj hsucc).symm (takeoffSuccessMsg_ne_reject altitude)
      | some m =>
        rw [hack] at hsucc
        by_cases hr : m.result = MAV_RESULT_ACCEPTED
        · exact ⟨m, rfl, hr⟩
        · simp only [ne_eq, hr, not_false_eq_true, if_true, reduceIte] at hsucc
          exact absurd (Outcome.ok.inj hsucc).symm (takeoffSuccessMsg_ne_reject altitude)

/-- Witness for C3: the spec's scenario — takeoff(15) whose COMMAND_ACK
comes back non-accepted. -/
theorem takeoff_ack_gating_witness :
    ((rejectAckEnv.recvAck = Except.ok none ∨
        ∃ m, rejectAckEnv.recvAck = Except.ok (some m) ∧ m.result ≠ MAV_RESULT_ACCEPTED) →
      (takeoff rejectAckEnv 15).1 = Outcome.ok takeoffRejectMsg) ∧
    ((takeoff rejectAckEnv 15).1 = Outcome.ok (takeoffSuccessMsg 15) →
      ∃ m, rejectAckEnv.recvAck = Except.ok (some m) ∧ m.result = MAV_RESULT_ACCEPTED) :=
  takeoff_ack_gating rejectAckEnv 15 rfl rfl rfl rfl rfl rfl

theorem takeoffAfterMode_snd (env : Env) (altitude : ℚ)
    (harm : env.arducopter_arm = Except.ok ())
    (hmaw : env.motors_armed_wait = Except.ok ())
    (hcl : env.command_long_send = Except.ok ()) :
    (takeoffAfterMode env altitude).2 =
      [Event.armCmd, Event.motorsArmedWait, Event.sleepMs 1000,
       Event.takeoffCmd MAV_CMD_NAV_TAKEOFF 0 0 0 0 0 0 0 altitude,
       Event.recvMatch "COMMAND_ACK" 10] := by
  unfold takeoffAfterMode
  simp only [harm, hmaw, hcl, andThen_ok, sleepThen_snd]
  cases hack : env.recvAck with
  | error e => simp
  | ok a =>
    cases a with
    | none => simp
    | some m => simp; split <;> simp

/-- Claim C4: After the heartbeat is observed, takeoff performs exactly:
a mode-change request (with the unchecked GUIDED table lookup) followed
by a ~1 s pause if and only if the current mode is not GUIDED; then the
arm command, the wait for armed, a ~1 s pause; then the takeoff command
with the altitude in param7 and every other parameter zero; then the
10 s COMMAND_ACK wait; then the session close. -/
theorem takeoff_sequence (env : Env) (altitude : ℚ)
    (hc : env.connect = Except.ok ())
    (h10 : env.waitHeartbeat10 = Except.ok true)
    (hsm : env.set_mode (env.mode_table.lookup "GUIDED") = Except.ok ())
    (harm : env.arducopter_arm = Except.ok ())
    (hmaw : env.motors_armed_wait = Except.ok ())
    (hcl : env.command_long_send = Except.ok ()) :
    (env.flightmode 0 ≠ "GUIDED" →
      (takeoff env altitude).2 =
        [Event.waitHeartbeat (some 10),
         Event.setModeCmd (env.mode_table.lookup "GUIDED"),
         Event.sleepMs 1000,
         Event.armCmd, Event.motorsArmedWait, Event.sleepMs 1000,
         Event.takeoffCmd MAV_CMD_NAV_TAKEOFF 0 0 0 0 0 0 0 altitude,
         Event.recvMatch "COMMAND_ACK" 10, Event.close]) ∧
    (env.flightmode 0 = "GUIDED" →
      (takeoff env altitude).2 =
        [Event.waitHeartbeat (some 10),
         Event.armCmd, Event.motorsArmedWait, Event.sleepMs 1000,
         Event.takeoffCmd MAV_CMD_NAV_TAKEOFF 0 0 0 0 0 0 0 altitude,
         Event.recvMatch "COMMAND_ACK" 10, Event.close]) := by
  have hsnd := takeoffAfterMode_snd env altitude harm hmaw hcl
  constructor
  · intro hm
    simp only [takeoff, takeoffBody, hc, finallyClose_snd, h10, andThen_ok]
    simp [hm, hsm, hsnd]
  · intro hm
    simp only [takeoff, takeoffBody, hc, finallyClose_snd, h10, andThen_ok]
    simp [hm, hsnd]

/-- Witness for C4 at a vehicle starting in STABILIZE mode. -/
theorem takeoff_sequence_witness :
    (stabilizeEnv.flightmode 0 ≠ "GUIDED" →
      (takeoff stabilizeEnv 10).2 =
        [Event.waitHeartbeat (some 10),
         Event.setModeCmd (stabilizeEnv.mode_table.lookup "GUIDED"),
         Event.sleepMs 1000,
         Event.armCmd, Event.motorsArmedWait, Event.sleepMs 1000,
         Event.takeoffCmd MAV_CMD_NAV_TAKEOFF 0 0 0 0 0 0 0 10,
         Event.recvMatch "COMMAND_ACK" 10, Event.close]) ∧
    (stabilizeEnv.flightmode 0 = "GUIDED" →
      (takeoff stabilizeEnv 10).2 =
        [Event.waitHeartbeat (some 10),
         Event.armCmd, Event.motorsArmedWait, Event.sleepMs 1000,
         Event.takeoffCmd MAV_CMD_NAV_TAKEOFF 0 0 0 0 0 0 0 10,
         Event.recvMatch "COMMAND_ACK" 10, Event.close]) :=
  takeoff_sequence stabilizeEnv 10 rfl rfl rfl rfl rfl rfl

theorem changeModePoll_hit (env : Env) (upper : String) :
    ∀ fuel k, (∃ j, j < fuel ∧ env.flightmode (k + j) = upper) →
      (changeModePoll env upper fuel k).1 =
        Outcome.ok (changeModeSuccessMsg upper) := by
  intro fuel
  induction fuel with
  | zero =>
    rintro k ⟨j, hj, _⟩
    exact absurd hj (Nat.not_lt_zero j)
  | succ n ih =>
    rintro k ⟨j, hj, hfm⟩
    unfold changeModePoll
    cases j with
    | zero => simp [show env.flightmode k = upper from hfm]
    | succ i =>
      by_cases hk : env.flightmode k = upper
      · simp [hk]
      · simp [hk]
        refine ih (k + 1) ⟨i, by omega, ?_⟩
        rw [show k + 1 + i = k + (i + 1) by omega]
        exact hfm

theorem changeModePoll_miss (env : Env) (upper : String) :
    ∀ fuel k, (∀ j, j < fuel → env.flightmode (k + j) ≠ upper) →
      (changeModePoll env upper fuel k).1 =
        Outcome.ok (changeModeWarnMsg (env.flightmode (k + fuel))) := by
  intro fuel
  induction fuel with
  | zero => intro k _; simp [changeModePoll]
  | succ n ih =>
    intro k h
    unfold changeModePoll
    have hk : env.flightmode k ≠ upper := by simpa using h 0 (Nat.succ_pos n)
    simp [hk]
    rw [show k + (n + 1) = k + 1 + n by omega]
    refine ih (k + 1) fun j hj => ?_
    rw [show k + 1 + j = k + (j + 1) by omega]
    exact h (j + 1) (by omega)

/-- Claim C5: `change_mode` looks the uppercased mode name up in the
vehicle's mode table; on a hit it requests the mode change, then polls
the reported flight mode (up to 50 polls, 100 ms apart — the 5 s
budget): if the uppercased mode is observed at some poll it returns the
success message with the uppercased name, otherwise it returns — as a
normal return, not a failure — the warning naming the mode observed
after the loop. -/
theorem change_mode_confirmation (env : Env) (mode : String) (id : Nat)
    (hc : env.connect = Except.ok ())
    (hwb : env.waitHeartbeatBlocking = Except.ok ())
    (hlk : env.mode_table.lookup (pyUpper mode) = some id)
    (hsm : env.set_mode (some id) = Except.ok ()) :
    Event.setModeCmd (some id) ∈ (change_mode env mode).2 ∧
    ((∃ j, j < 50 ∧ env.flightmode j = pyUpper mode) →
      (change_mode env mode).1 = Outcome.ok (changeModeSuccessMsg (pyUpper mode))) ∧
    ((∀ j, j < 50 → env.flightmode j ≠ pyUpper mode) →
      (change_mode env mode).1 = Outcome.ok (changeModeWarnMsg (env.flightmode 50))) := by
  refine ⟨?_, ?_, ?_⟩
  · simp [change_mode, changeModeBody, hc, hwb, hlk, hsm]
  · rintro ⟨j, hj, hfm⟩
    simp only [change_mode, changeModeBody, hc, finallyClose_fst, hwb, andThen_ok, hlk, hsm]
    exact changeModePoll_hit env (pyUpper mode) 50 0 ⟨j, hj, by simpa using hfm⟩
  · intro hmiss
    simp only [change_mode, changeModeBody, hc, finallyClose_fst, hwb, andThen_ok, hlk, hsm]
    have := changeModePoll_miss env (pyUpper mode) 50 0
      (fun j hj => by simpa using hmiss j hj)
    simpa using this

/-- Witness for C5: change_mode("guided") against a vehicle that reports
"GUIDED" from the fourth poll (within 300 ms), mode table GUIDED→4. -/
theorem change_mode_confirmation_witness :
    Event.setModeCmd (some 4) ∈ (change_mode lateGuidedEnv "guided").2 ∧
    ((∃ j, j < 50 ∧ lateGuidedEnv.flightmode j = pyUpper "guided") →
      (change_mode lateGuidedEnv "guided").1 =
        Outcome.ok (changeModeSuccessMsg (pyUpper "guided"))) ∧
    ((∀ j, j < 50 → lateGuidedEnv.flightmode j ≠ pyUpper "guided") →
      (change_mode lateGuidedEnv "guided").1 =
        Outcome.ok (changeModeWarnMsg (lateGuidedEnv.flightmode 50))) :=
  change_mode_confirmation lateGuidedEnv "guided" 4 rfl rfl (by decide) rfl

/-- Claim C6: When the uppercased mode name is absent from the mode table,
`change_mode` returns the invalid-mode error message and dispatches zero
commands to the transport. -/
theorem change_mode_invalid_no_command (env : Env) (mode : String)
    (hc : env.connect = Except.ok ())
    (hwb : env.waitHeartbeatBlocking = Except.ok ())
    (hlk : env.mode_table.lookup (pyUpper mode) = none) :
    (change_mode env mode).1 = Outcome.ok (invalidModeMsg mode) ∧
    cmdCount (change_mode env mode).2 = 0 := by
  refine ⟨?_, ?_⟩
  · simp [change_mode, changeModeBody, hc, hwb, hlk]
  · simp [change_mode, changeModeBody, hc, hwb, hlk, cmdCount, Event.isCommand]

/-- Witness for C6: change_mode("bogus") against a table lacking BOGUS. -/
theorem change_mode_invalid_no_command_witness :
    (change_mode okEnv "bogus").1 = Outcome.ok (invalidModeMsg "bogus") ∧
    cmdCount (change_mode okEnv "bogus").2 = 0 :=
  change_mode_invalid_no_command okEnv "bogus" rfl rfl (by decide)

/-- Claim C7: `get_position` converts raw telemetry exactly: lat/lon are
the micro-degree integers divided by 1e7, altitude and relative altitude
the millimetre integers divided by 1000, heading the centi-degree
integer divided by 100, and the velocity components are returned raw; on
the spec's test vector (lat=123456780, alt=10000, hdg=9000) this gives
latitude 12.345678, altitude 10.0 and heading 90.0. -/
theorem get_position_conversions (env : Env) (p : PositionMsg)
    (hc : env.connect = Except.ok ())
    (hwb : env.waitHeartbeatBlocking = Except.ok ())
    (hpos : env.recvPosition = Except.ok (some p)) :
    (∃ d, (get_position env).1 = Outcome.ok (PositionResult.data d) ∧
      d.latitude = (p.lat : ℚ) / 10 ^ 7 ∧
      d.longitude = (p.lon : ℚ) / 10 ^ 7 ∧
      d.altitude = (p.alt : ℚ) / 1000 ∧
      d.relative_alt = (p.relative_alt : ℚ) / 1000 ∧
      d.heading = (p.hdg : ℚ) / 100 ∧
      d.vx = p.vx ∧ d.vy = p.vy ∧ d.vz = p.vz) ∧
    (convertPosition specPosition).latitude = 12.345678 ∧
    (convertPosition specPosition).altitude = 10.0 ∧
    (convertPosition specPosition).heading = 90.0 := by
  refine ⟨⟨convertPosition p, ?_, rfl, rfl, rfl, rfl, rfl, rfl, rfl, rfl⟩, ?_, ?_, ?_⟩
  · simp [get_position, getPositionBody, hc, hwb, hpos]
  · norm_num [convertPosition, specPosition]
  · norm_num [convertPosition, specPosition]
  · norm_num [convertPosition, specPosition]

/-- Witness for C7 at the spec's raw telemetry vector. -/
theorem get_position_conversions_witness :
    (∃ d, (get_position okEnv).1 = Outcome.ok (PositionResult.data d) ∧
      d.latitude = (specPosition.lat : ℚ) / 10 ^ 7 ∧
      d.longitude = (specPosition.lon : ℚ) / 10 ^ 7 ∧
      d.altitude = (specPosition.alt : ℚ) / 1000 ∧
      d.relative_alt = (specPosition.relative_alt : ℚ) / 1000 ∧
      d.heading = (specPosition.hdg : ℚ) / 100 ∧
      d.vx = specPosition.vx ∧ d.vy = specPosition.vy ∧ d.vz = specPosition.vz) ∧
    (convertPosition specPosition).latitude = 12.345678 ∧
    (convertPosition specPosition).altitude = 10.0 ∧
    (convertPosition specPosition).heading = 90.0 :=
  get_position_conversions okEnv specPosition rfl rfl rfl

/-- Claim C8: When no GLOBAL_POSITION_INT arrives within the 5-second
wait, `get_position` returns the structured error record — a normal
return, not a raised exception. -/
theorem get_position_timeout_structured (env : Env)
    (hc : env.connect = Except.ok ())
    (hwb : env.waitHeartbeatBlocking = Except.ok ())
    (hpos : env.recvPosition = Except.ok none) :
    (get_position env).1 = Outcome.ok (PositionResult.error noPositionMsg) := by
  simp [get_position, getPositionBody, hc, hwb, hpos]

/-- Witness for C8: no telemetry within the wait. -/
theorem get_position_timeout_structured_witness :
    (get_position noPositionEnv).1 = Outcome.ok (PositionResult.error noPositionMsg) :=
  get_position_timeout_structured noPositionEnv rfl rfl rfl

/-- Claim C9: `get_status` returns the structured record with exactly the
fields `armed`, `mode`, `system_status` (the `StatusResult` shape), and
with no cached HEARTBEAT it returns `system_status = none` rather than
raising. -/
theorem get_status_structured (env : Env)
    (hc : env.connect = Except.ok ())
    (hwb : env.waitHeartbeatBlocking = Except.ok ()) :
    (get_status env).1 = Outcome.ok
      { armed := env.motors_armed
        mode := env.flightmode 0
        system_status := env.cachedHeartbeat.map HeartbeatMsg.system_status } ∧
    (env.cachedHeartbeat = none →
      (get_status env).1 = Outcome.ok
        { armed := env.motors_armed
          mode := env.flightmode 0
          system_status := none }) := by
  constructor
  · simp [get_status, getStatusBody, hc, hwb]
  · intro hch
    simp [get_status, getStatusBody, hc, hwb, hch]

/-- Witness for C9: no cached liveness broadcast. -/
theorem get_status_structured_witness :
    (get_status okEnv).1 = Outcome.ok
      { armed := okEnv.motors_armed
        mode := okEnv.flightmode 0
        system_status := okEnv.cachedHeartbeat.map HeartbeatMsg.system_status } ∧
    (okEnv.cachedHeartbeat = none →
      (get_status okEnv).1 = Outcome.ok
        { armed := okEnv.motors_armed
          mode := okEnv.flightmode 0
          system_status := none }) :=
  get_status_structured okEnv rfl rfl

/-- Claim C10: In takeoff, when the current mode is not GUIDED, the raw
result of looking up "GUIDED" in the mode table — whatever it is — is
passed to the mode-change request with no null check: the request is
dispatched even when the table lacks "GUIDED", and no invalid-mode error
is produced first. -/
theorem takeoff_unguarded_guided_lookup (env : Env) (altitude : ℚ)
    (hc : env.connect = Except.ok ())
    (h10 : env.waitHeartbeat10 = Except.ok true)
    (hm : env.flightmode 0 ≠ "GUIDED") :
    Event.setModeCmd (env.mode_table.lookup "GUIDED") ∈ (takeoff env altitude).2 ∧
    (env.mode_table.lookup "GUIDED" = none →
      Event.setModeCmd none ∈ (takeoff env altitude).2) := by
  have hmem : Event.setModeCmd (env.mode_table.lookup "GUIDED") ∈ (takeoff env altitude).2 := by
    simp only [takeoff, hc, finallyClose_snd, takeoffBody, h10, andThen_ok]
    simp only [hm, if_true, ne_eq, not_false_eq_true, reduceIte]
    cases hsm : env.set_mode (env.mode_table.lookup "GUIDED") <;> simp
  exact ⟨hmem, fun hnone => by rw [hnone] at hmem; exact hmem⟩

/-- Witness for C10: a vehicle in STABILIZE whose mode table is empty. -/
theorem takeoff_unguarded_guided_lookup_witness :
    Event.setModeCmd (noGuidedEnv.mode_table.lookup "GUIDED") ∈ (takeoff noGuidedEnv 10).2 ∧
    (noGuidedEnv.mode_table.lookup "GUIDED" = none →
      Event.setModeCmd none ∈ (takeoff noGuidedEnv 10).2) :=
  takeoff_unguarded_guided_lookup noGuidedEnv 10 rfl rfl (by decide)

end ArduPilotMCP
